import Mathlib

/-!
Verification development for the gastown fleet-lifecycle core
(`internal/cmd/start.go`) and the dispatch result record schema
(exercised by `internal/cmd/sling_json_test.go`).

The Go code is shallowly embedded: the tmux session multiplexer, the
git layer and the polecat registry are external collaborators, so their
responses (session lists, kill outcomes, uncommitted-work checks,
worktree-removal outcomes) are inputs of the embedded functions, and
the observable side effects (interrupts, notices, kill attempts, the
reclamation pass) are returned as explicit event traces.

Go strings are modelled as Lean `String` values, with the handful of
`strings` package operations the code uses re-implemented on the
underlying character list so that every definition is kernel-executable.
-/

namespace Gastown

/-! ### Go string primitives -/

/-- Model of `strings.Split(s, sep)` for a one-character separator,
on the character list of the string. -/
def splitChar (sep : Char) : List Char → List (List Char)
  | [] => [[]]
  | c :: rest =>
    let r := splitChar sep rest
    if c == sep then [] :: r
    else
      match r with
      | [] => [[c]]
      | h :: t => (c :: h) :: t

/-- Model of `strings.Split(sess, "-")` from `categorizeSessions`. -/
def goSplitDash (s : String) : List String :=
  (splitChar '-' s.data).map String.mk

/-- Helper for `goContains`: does `sub` occur as a contiguous run in the list. -/
def listContainsSub (sub : List Char) : List Char → Bool
  | [] => sub.isEmpty
  | c :: rest => sub.isPrefixOf (c :: rest) || listContainsSub sub rest

/-- Model of `strings.Contains(s, sub)`. -/
def goContains (s sub : String) : Bool :=
  listContainsSub sub.data s.data

/-- Model of `strings.HasPrefix(s, pre)`. -/
def goHasPrefix (s pre : String) : Bool :=
  pre.data.isPrefixOf s.data

/-- Model of `strings.ToLower(s)` (ASCII case mapping suffices for the
confirmation prompt). -/
def goToLower (s : String) : String :=
  String.mk (s.data.map Char.toLower)

/-- Model of `strings.TrimSpace(s)`: drop whitespace from both ends. -/
def goTrimSpace (s : String) : String :=
  String.mk (((s.data.dropWhile Char.isWhitespace).reverse.dropWhile
    Char.isWhitespace).reverse)

/-! ### Session names and classification (`categorizeSessions`, start.go lines 183 to 225) -/

/-- Modelled from the spec: the reserved coordinator (Mayor) singleton session
name. The constant `MayorSessionName` is declared outside the provided source
files; the spec fixes the fleet prefix `gt-` and a reserved singleton name. -/
def MayorSessionName : String := "gt-mayor"

/-- Modelled from the spec: the reserved supervisor (Deacon) singleton session
name, declared outside the provided source files. -/
def DeaconSessionName : String := "gt-deacon"

/-- Crew test from `categorizeSessions`: `strings.Contains(sess, "-crew-")`. -/
def isCrewSession (sess : String) : Bool :=
  goContains sess "-crew-"

/-- Polecat test from `categorizeSessions`: not crew, not a singleton, and the
name has at least three dash-separated parts whose third part is none of
`witness`, `refinery`, `crew`. -/
def isPolecatSession (sess : String) : Bool :=
  if isCrewSession sess || sess == MayorSessionName || sess == DeaconSessionName then
    false
  else
    match (goSplitDash sess).get? 2 with
    | some role => !(role == "witness") && !(role == "refinery") && !(role == "crew")
    | none => false

/-- Monitor-role test, following the naming convention of the spec: the third
dash-separated segment of the session name is `witness` or `refinery`. Used to
state the complement-set characterization of ephemeral workers given by the
spec. -/
def isMonitorRoleSession (sess : String) : Bool :=
  match (goSplitDash sess).get? 2 with
  | some role => role == "witness" || role == "refinery"
  | none => false

/-- Embedding of `categorizeSessions` (start.go lines 183 to 225): split the
session list into the sessions to stop and the sessions to preserve, under the
`--polecats-only` and `--all` flags. Sessions without the `gt-` prefix are
skipped entirely. -/
def categorizeSessions (polecatsOnly allFlag : Bool) : List String → List String × List String
  | [] => ([], [])
  | sess :: rest =>
    let acc := categorizeSessions polecatsOnly allFlag rest
    if !(goHasPrefix sess "gt-") then acc
    else if polecatsOnly then
      if isPolecatSession sess then (sess :: acc.1, acc.2) else (acc.1, sess :: acc.2)
    else if allFlag then (sess :: acc.1, acc.2)
    else if isCrewSession sess then (acc.1, sess :: acc.2)
    else (sess :: acc.1, acc.2)

/-! ### Termination order (`killSessionsInOrder`, start.go lines 299 to 340) -/

/-- Embedding of `killSessionsInOrder`: the first component is the sequence of
kill attempts in program order (Deacon first if selected, then every selected
session other than Deacon and Mayor in discovery order, then Mayor last if
selected); the second component is the `stopped` counter, which counts only the
attempts for which the external `KillSession` call succeeds (`killOk`). -/
def killSessionsInOrder (killOk : String → Bool) (sessions : List String) :
    List String × Nat :=
  let deaconPart : List String :=
    if sessions.contains DeaconSessionName then [DeaconSessionName] else []
  let othersPart : List String :=
    sessions.filter (fun s => !(s == DeaconSessionName) && !(s == MayorSessionName))
  let mayorPart : List String :=
    if sessions.contains MayorSessionName then [MayorSessionName] else []
  let attempts := deaconPart ++ othersPart ++ mayorPart
  (attempts, (attempts.filter killOk).length)

/-! ### Shutdown protocols (start.go lines 131 to 293) -/

/-- Observable effects of a shutdown run, in program order. -/
inductive ShutdownEvent
  | interrupt (sess : String)
  | sleepMs (ms : Nat)
  | notice (sess : String)
  | waitSec (secs : Int)
  | killAttempt (sess : String) (ok : Bool)
  | cleanup
deriving DecidableEq

/-- Body of the phase-3 countdown loop of `runGracefulShutdown`
(`for remaining := shutdownWait; remaining > 0; remaining -= 5`), returning the
list of sleep durations. The `fuel` argument only bounds the iteration count;
it is set to `remaining.toNat`, which never runs out because each iteration
lowers `remaining.toNat` by at least one while it is positive. -/
def phase3Go : Nat → Int → List Int
  | 0, _ => []
  | Nat.succ fuel, remaining =>
    if remaining > 0 then
      (if remaining < 5 then remaining else 5) :: phase3Go fuel (remaining - 5)
    else []

/-- Sleep durations of the phase-3 wait loop for a configured wait value. -/
def phase3Sleeps (shutdownWait : Int) : List Int :=
  phase3Go shutdownWait.toNat shutdownWait

/-- Embedding of `runGracefulShutdown` (start.go lines 227 to 275): the event
trace of the five phases in program order, plus the `stopped` count returned by
phase 4. The reclamation pass of phase 5 only runs when a workspace root was
found (`townRoot` nonempty). -/
def runGracefulShutdown (killOk : String → Bool) (shutdownWait : Int)
    (gtSessions : List String) (townRoot : String) : List ShutdownEvent × Nat :=
  let phase1 := gtSessions.map ShutdownEvent.interrupt
  let phase2 :=
    (gtSessions.map (fun sess => [ShutdownEvent.sleepMs 500, ShutdownEvent.notice sess])).flatten
  let phase3 := (phase3Sleeps shutdownWait).map ShutdownEvent.waitSec
  let killed := killSessionsInOrder killOk gtSessions
  let phase4 := killed.1.map (fun sess => ShutdownEvent.killAttempt sess (killOk sess))
  let phase5 := if townRoot == "" then [] else [ShutdownEvent.cleanup]
  (phase1 ++ phase2 ++ phase3 ++ phase4 ++ phase5, killed.2)

/-- Embedding of `runImmediateShutdown` (start.go lines 277 to 293). -/
def runImmediateShutdown (killOk : String → Bool) (gtSessions : List String)
    (townRoot : String) : List ShutdownEvent × Nat :=
  let killed := killSessionsInOrder killOk gtSessions
  (killed.1.map (fun sess => ShutdownEvent.killAttempt sess (killOk sess))
    ++ (if townRoot == "" then [] else [ShutdownEvent.cleanup]), killed.2)

/-- Outcome of the confirmation prompt of `runShutdown`: the response is
lowercased, trimmed, and compared with `y` and `yes`. -/
def confirmRejected (response : String) : Bool :=
  let r := goTrimSpace (goToLower response)
  !(r == "y") && !(r == "yes")

/-- Result of one `runShutdown` invocation. -/
structure ShutdownRun where
  notRunningReported : Bool
  cancelled : Bool
  events : List ShutdownEvent
  success : Bool
deriving DecidableEq

/-- Embedding of `runShutdown` (start.go lines 131 to 180): classify the live
sessions, return early when nothing is selected, otherwise ask for confirmation
(unless `--yes`) and run the graceful or the immediate protocol on the selected
sessions. Every branch of the Go function returns nil, so `success` is true
throughout. -/
def runShutdown (graceful yes polecatsOnly allFlag : Bool) (shutdownWait : Int)
    (killOk : String → Bool) (townRoot : String) (sessions : List String)
    (response : String) : ShutdownRun :=
  let cats := categorizeSessions polecatsOnly allFlag sessions
  if cats.1.isEmpty then ⟨true, false, [], true⟩
  else if !yes && confirmRejected response then ⟨false, true, [], true⟩
  else if graceful then
    ⟨false, false, (runGracefulShutdown killOk shutdownWait cats.1 townRoot).1, true⟩
  else
    ⟨false, false, (runImmediateShutdown killOk cats.1 townRoot).1, true⟩

/-! ### Startup (`runStart`, start.go lines 86 to 129) -/

/-- Session starts a `runStart` invocation can issue. -/
inductive StartEvent
  | startMayor
  | startDeacon
deriving DecidableEq

/-- Embedding of `runStart` (start.go lines 86 to 129): the Mayor session is
started only when `HasSession(MayorSessionName)` reports it absent, then the
Deacon likewise; a failure of `startMayorSession` aborts before the Deacon is
considered. Returns the session starts issued, in program order, and whether
the run succeeded. -/
def runStart (mayorRunning deaconRunning mayorStartOk deaconStartOk : Bool) :
    List StartEvent × Bool :=
  let mayorStep : List StartEvent × Bool :=
    if mayorRunning then ([], true) else ([StartEvent.startMayor], mayorStartOk)
  if !mayorStep.2 then (mayorStep.1, false)
  else
    let deaconStep : List StartEvent × Bool :=
      if deaconRunning then ([], true) else ([StartEvent.startDeacon], deaconStartOk)
    (mayorStep.1 ++ deaconStep.1, deaconStep.2)

/-! ### Polecat reclamation (`cleanupPolecats`, start.go lines 342 to 435) -/

/-- Result of `CheckUncommittedWork` on the working copy of one polecat:
either the check itself fails, or it reports cleanliness and a change summary
(`status.Clean()` and `status.String()`). -/
inductive StatusCheck
  | err
  | ok (clean : Bool) (summary : String)
deriving DecidableEq

/-- One discovered polecat, tagged with its rig, together with the responses of
the external git and registry layers for it: the uncommitted-work check, the
outcome of `RemoveWithOptions`, and the outcome of `DeleteBranch`. -/
structure Polecat where
  rigName : String
  name : String
  check : StatusCheck
  removeOk : Bool
  deleteBranchOk : Bool
deriving DecidableEq

/-- Observable effects of the reclamation pass for one polecat. -/
inductive CleanupEvent
  | warnNuclear (rig name : String)
  | removeWorktree (rig name : String) (ok : Bool)
  | deleteBranch (branch : String) (ok : Bool)
deriving DecidableEq

/-- Totals and report of a reclamation pass: the `totalCleaned` and
`totalSkipped` counters, the `uncommittedPolecats` report entries, and the
event trace. -/
structure CleanupSummary where
  cleaned : Nat
  skipped : Nat
  uncommitted : List String
  events : List CleanupEvent
deriving DecidableEq

/-- Report entry recorded for a polecat with uncommitted work:
`fmt.Sprintf("%s/%s (%s)", r.Name, p.Name, status.String())`. -/
def reportEntry (p : Polecat) (summary : String) : String :=
  p.rigName ++ "/" ++ p.name ++ " (" ++ summary ++ ")"

/-- Removal step of the loop body (start.go lines 401 to 416): attempt
`RemoveWithOptions`; on failure count the polecat as skipped; on success delete
the `polecat/<name>` branch from the mayor clone with the error ignored, and
count the polecat as cleaned. `warn` carries the nuclear-mode warning emitted
before the attempt, if any. -/
def attemptRemoval (warn : List CleanupEvent) (p : Polecat) : CleanupSummary :=
  if p.removeOk then
    ⟨1, 0, [],
      warn ++ [CleanupEvent.removeWorktree p.rigName p.name true,
        CleanupEvent.deleteBranch ("polecat/" ++ p.name) p.deleteBranchOk]⟩
  else
    ⟨0, 1, [], warn ++ [CleanupEvent.removeWorktree p.rigName p.name false]⟩

/-- Loop body of `cleanupPolecats` for one polecat (start.go lines 376 to 417):
a failed check skips unless nuclear; uncommitted work skips and records a
report entry unless nuclear, in which case a warning is emitted and removal
proceeds; a clean polecat goes straight to removal. -/
def processPolecat (nuclear : Bool) (p : Polecat) : CleanupSummary :=
  match p.check with
  | StatusCheck.err =>
    if !nuclear then ⟨0, 1, [], []⟩
    else attemptRemoval [] p
  | StatusCheck.ok clean summary =>
    if !clean then
      if !nuclear then ⟨0, 1, [reportEntry p summary], []⟩
      else attemptRemoval [CleanupEvent.warnNuclear p.rigName p.name] p
    else attemptRemoval [] p

/-- Embedding of the polecat loop of `cleanupPolecats` over all discovered
polecats of all rigs, accumulating counters, report entries and events in
iteration order. -/
def cleanupPolecats (nuclear : Bool) : List Polecat → CleanupSummary
  | [] => ⟨0, 0, [], []⟩
  | p :: rest =>
    let here := processPolecat nuclear p
    let acc := cleanupPolecats nuclear rest
    ⟨here.cleaned + acc.cleaned, here.skipped + acc.skipped,
      here.uncommitted ++ acc.uncommitted, here.events ++ acc.events⟩

/-- Convenience for stating that branch-deletion outcomes are ignored: the same
polecat with a different `DeleteBranch` outcome. -/
def withDeleteBranchOk (p : Polecat) (b : Bool) : Polecat :=
  ⟨p.rigName, p.name, p.check, p.removeOk, b⟩

/-! ### Dispatch result record (sling_json_test.go) -/

/-- Modelled from the spec: the action taken by one dispatch, `slung`,
`spawned` or `dry_run` (spec section 4.4 step 8). The defining Go file of
`slingAction` is not among the provided sources; only its test file is. -/
inductive slingAction
  | slung
  | spawned
  | dryRun
deriving DecidableEq

/-- Serialized form of a `slingAction` constant, as checked by
`TestSlingActionConstants`. -/
def slingActionString : slingAction → String
  | slingAction.slung => "slung"
  | slingAction.spawned => "spawned"
  | slingAction.dryRun => "dry_run"

/-- JSON scalar values appearing in a dispatch result record. -/
inductive JsonValue
  | str (s : String)
  | bool (b : Bool)
deriving DecidableEq

/-- Modelled from the spec: the dispatch result record (spec section 4.4
step 8). The defining Go file of `slingResult` is not among the provided
sources; the fields and their JSON names are fixed by `TestSlingResult_JSON`
and `TestSlingResult_OmitEmpty`. -/
structure slingResult where
  action : slingAction
  beadID : String
  originalBeadID : String
  target : String
  formula : String
  wispID : String
  convoyID : String
  spawnedPolecat : Bool
  polecatName : String
  nudgeSent : Bool

/-- Modelled from the spec: JSON serialization of a dispatch result record as
an ordered key-value list. The `action`, `bead_id`, `target` and `nudge_sent`
fields are always present; `original_bead_id`, `formula`, `wisp_id`,
`convoy_id` and `polecat_name` carry `omitempty` and are dropped when empty,
and `spawned_polecat` is dropped when false, matching the test expectations. -/
def slingResultJSON (r : slingResult) : List (String × JsonValue) :=
  [("action", JsonValue.str (slingActionString r.action)),
    ("bead_id", JsonValue.str r.beadID)]
  ++ (if r.originalBeadID == "" then []
      else [("original_bead_id", JsonValue.str r.originalBeadID)])
  ++ [("target", JsonValue.str r.target)]
  ++ (if r.formula == "" then [] else [("formula", JsonValue.str r.formula)])
  ++ (if r.wispID == "" then [] else [("wisp_id", JsonValue.str r.wispID)])
  ++ (if r.convoyID == "" then [] else [("convoy_id", JsonValue.str r.convoyID)])
  ++ (if r.spawnedPolecat then [("spawned_polecat", JsonValue.bool true)] else [])
  ++ (if r.polecatName == "" then [] else [("polecat_name", JsonValue.str r.polecatName)])
  ++ [("nudge_sent", JsonValue.bool r.nudgeSent)]

/-! ## Helper lemmas -/

/-- Membership in the kill-attempt sequence is exactly membership in the
selected session list. -/
theorem mem_killSessionsInOrder (killOk : String → Bool) (sessions : List String)
    (s : String) :
    s ∈ (killSessionsInOrder killOk sessions).1 ↔ s ∈ sessions := by
  simp only [killSessionsInOrder, List.mem_append, List.mem_filter]
  constructor
  · rintro ((h | h) | h)
    · split at h <;> simp_all
    · exact h.1
    · split at h <;> simp_all
  · intro hs
    by_cases hd : s = DeaconSessionName
    · subst hd; left; left; simp [hs]
    · by_cases hm : s = MayorSessionName
      · subst hm; right; simp [hs]
      · left; right; exact ⟨hs, by simp [hd, hm]⟩

/-- Deacon never occurs in the middle part of the kill sequence. -/
theorem deacon_not_mem_others (sessions : List String) :
    DeaconSessionName ∉
      sessions.filter (fun s => !(s == DeaconSessionName) && !(s == MayorSessionName)) := by
  simp

/-- Mayor never occurs in the middle part of the kill sequence. -/
theorem mayor_not_mem_others (sessions : List String) :
    MayorSessionName ∉
      sessions.filter (fun s => !(s == DeaconSessionName) && !(s == MayorSessionName)) := by
  simp

/-- The two singleton session names differ. -/
theorem deacon_ne_mayor : DeaconSessionName ≠ MayorSessionName := by decide

/-- C1: for every shutdown invocation, among the sessions selected for
stopping, the Deacon session is terminated before every other selected session
(it is the head of the kill sequence and occurs nowhere in its tail) and the
Mayor session is terminated after every other selected session (it is the last
element and occurs nowhere before), regardless of the order in which sessions
were discovered; the sequence attempts exactly the selected sessions. -/
theorem killSessionsInOrder_deacon_first_mayor_last (killOk : String → Bool)
    (sessions : List String) :
    (DeaconSessionName ∈ sessions →
      ((killSessionsInOrder killOk sessions).1).head? = some DeaconSessionName)
  ∧ (MayorSessionName ∈ sessions →
      ((killSessionsInOrder killOk sessions).1).getLast? = some MayorSessionName)
  ∧ DeaconSessionName ∉ ((killSessionsInOrder killOk sessions).1).tail
  ∧ MayorSessionName ∉ ((killSessionsInOrder killOk sessions).1).dropLast
  ∧ (∀ s, s ∈ (killSessionsInOrder killOk sessions).1 ↔ s ∈ sessions) := by
  have hDM : DeaconSessionName ≠ MayorSessionName := by decide
  have hDo := deacon_not_mem_others sessions
  have hMo := mayor_not_mem_others sessions
  refine ⟨?_, ?_, ?_, ?_, mem_killSessionsInOrder killOk sessions⟩
  · intro hd
    simp only [killSessionsInOrder]
    simp [hd]
  · intro hm
    have hmc : sessions.contains MayorSessionName = true := by simpa using hm
    simp only [killSessionsInOrder]
    rw [if_pos hmc, List.getLast?_concat]
  · cases hd : sessions.contains DeaconSessionName
    · have hds : DeaconSessionName ∉ sessions := by simpa using hd
      have : DeaconSessionName ∉ (killSessionsInOrder killOk sessions).1 := by
        rw [mem_killSessionsInOrder]; exact hds
      exact fun hmem => this (List.mem_of_mem_tail hmem)
    · simp only [killSessionsInOrder]
      rw [if_pos hd]
      simp only [List.cons_append, List.tail_cons, List.nil_append, List.mem_append]
      rintro (h | h)
      · exact hDo h
      · split at h <;> simp_all
  · cases hm : sessions.contains MayorSessionName
    · have hms : MayorSessionName ∉ sessions := by simpa using hm
      have hnm : MayorSessionName ∉ (killSessionsInOrder killOk sessions).1 := by
        rw [mem_killSessionsInOrder]; exact hms
      exact fun hmem => hnm (List.dropLast_sublist _ |>.subset hmem)
    · simp only [killSessionsInOrder]
      rw [if_pos hm, List.dropLast_concat]
      simp only [List.mem_append]
      rintro (h | h)
      · split at h <;> simp_all
      · exact hMo h

/-- Witness for C1 at a concrete session list discovered out of order. -/
theorem killSessionsInOrder_order_witness :
    ((killSessionsInOrder (fun _ => true)
        ["gt-gastown-toast", "gt-mayor", "gt-deacon", "gt-gastown-nux"]).1).head?
      = some DeaconSessionName
  ∧ ((killSessionsInOrder (fun _ => true)
        ["gt-gastown-toast", "gt-mayor", "gt-deacon", "gt-gastown-nux"]).1).getLast?
      = some MayorSessionName :=
  ⟨(killSessionsInOrder_deacon_first_mayor_last (fun _ => true)
      ["gt-gastown-toast", "gt-mayor", "gt-deacon", "gt-gastown-nux"]).1 (by decide),
    (killSessionsInOrder_deacon_first_mayor_last (fun _ => true)
      ["gt-gastown-toast", "gt-mayor", "gt-deacon", "gt-gastown-nux"]).2.1 (by decide)⟩

/-- Sessions without the fleet prefix are placed in neither output list of the
classifier. -/
theorem categorizeSessions_nonfleet (polecatsOnly allFlag : Bool)
    (sessions : List String) (sess : String) (h : goHasPrefix sess "gt-" = false) :
    sess ∉ (categorizeSessions polecatsOnly allFlag sessions).1
  ∧ sess ∉ (categorizeSessions polecatsOnly allFlag sessions).2 := by
  induction sessions with
  | nil => simp [categorizeSessions]
  | cons s rest ih =>
    obtain ⟨ih1, ih2⟩ := ih
    cases hp : goHasPrefix s "gt-" with
    | false => simpa [categorizeSessions, hp] using ⟨ih1, ih2⟩
    | true =>
      have hne : sess ≠ s := fun he => by rw [he, hp] at h; cases h
      cases polecatsOnly <;> cases allFlag <;>
        cases hcrew : isCrewSession s <;> cases hpole : isPolecatSession s <;>
        simp [categorizeSessions, hp, hcrew, hpole, hne, ih1, ih2]

/-- C8: a session whose name does not carry the reserved `gt-` prefix is placed
in neither the to-stop list nor the preserved list by the shutdown classifier,
and consequently it never appears among the kill attempts made on the
classified to-stop list. -/
theorem nonfleet_session_never_killed (polecatsOnly allFlag : Bool)
    (sessions : List String) (sess : String) (h : goHasPrefix sess "gt-" = false) :
    sess ∉ (categorizeSessions polecatsOnly allFlag sessions).1
  ∧ sess ∉ (categorizeSessions polecatsOnly allFlag sessions).2
  ∧ ∀ killOk,
      sess ∉ (killSessionsInOrder killOk
        ((categorizeSessions polecatsOnly allFlag sessions).1)).1 :=
  ⟨(categorizeSessions_nonfleet polecatsOnly allFlag sessions sess h).1,
    (categorizeSessions_nonfleet polecatsOnly allFlag sessions sess h).2,
    fun killOk hmem =>
      (categorizeSessions_nonfleet polecatsOnly allFlag sessions sess h).1
        ((mem_killSessionsInOrder killOk _ sess).1 hmem)⟩

/-- Witness for C8: a foreign tmux session is untouched by shutdown. -/
theorem nonfleet_session_never_killed_witness :
    "work-main" ∉ (categorizeSessions false false ["work-main", "gt-mayor"]).1
  ∧ "work-main" ∉ (categorizeSessions false false ["work-main", "gt-mayor"]).2
  ∧ "work-main" ∉ (killSessionsInOrder (fun _ => true)
      ((categorizeSessions false false ["work-main", "gt-mayor"]).1)).1 :=
  ⟨(nonfleet_session_never_killed false false ["work-main", "gt-mayor"]
      "work-main" (by decide)).1,
    (nonfleet_session_never_killed false false ["work-main", "gt-mayor"]
      "work-main" (by decide)).2.1,
    (nonfleet_session_never_killed false false ["work-main", "gt-mayor"]
      "work-main" (by decide)).2.2 (fun _ => true)⟩

/-- Characterization of the classifier under `--polecats-only`. -/
theorem categorizeSessions_polecatsOnly (allFlag : Bool) (sessions : List String) :
    categorizeSessions true allFlag sessions =
      (sessions.filter (fun s => goHasPrefix s "gt-" && isPolecatSession s),
        sessions.filter (fun s => goHasPrefix s "gt-" && !(isPolecatSession s))) := by
  induction sessions with
  | nil => simp [categorizeSessions]
  | cons s rest ih =>
    cases hp : goHasPrefix s "gt-" <;> cases hpole : isPolecatSession s <;>
      simp [categorizeSessions, List.filter_cons, hp, hpole, ih]

/-- Characterization of the classifier under `--all`. -/
theorem categorizeSessions_all (sessions : List String) :
    categorizeSessions false true sessions =
      (sessions.filter (fun s => goHasPrefix s "gt-"), []) := by
  induction sessions with
  | nil => simp [categorizeSessions]
  | cons s rest ih =>
    cases hp : goHasPrefix s "gt-" <;>
      simp [categorizeSessions, List.filter_cons, hp, ih]

/-- Characterization of the classifier under the default policy. -/
theorem categorizeSessions_default (sessions : List String) :
    categorizeSessions false false sessions =
      (sessions.filter (fun s => goHasPrefix s "gt-" && !(isCrewSession s)),
        sessions.filter (fun s => goHasPrefix s "gt-" && isCrewSession s)) := by
  induction sessions with
  | nil => simp [categorizeSessions]
  | cons s rest ih =>
    cases hp : goHasPrefix s "gt-" <;> cases hcrew : isCrewSession s <;>
      simp [categorizeSessions, List.filter_cons, hp, hcrew, ih]

/-- C2 counterexample: the session name `gt-x` carries the fleet prefix and is
neither a singleton, nor a crew session, nor a monitor-role session, so the
complement-set characterization of the claim would select it under
`--polecats-only`; the classifier instead preserves it, because its name has
fewer than three dash-separated parts and `isPolecatSession` therefore rejects
it. -/
theorem categorizeSessions_complement_counterexample :
    goHasPrefix "gt-x" "gt-" = true
  ∧ ("gt-x" == MayorSessionName) = false
  ∧ ("gt-x" == DeaconSessionName) = false
  ∧ isCrewSession "gt-x" = false
  ∧ isMonitorRoleSession "gt-x" = false
  ∧ (categorizeSessions true false ["gt-x"]).1 = []
  ∧ (categorizeSessions true false ["gt-x"]).2 = ["gt-x"] := by decide

/-- C2 (amended): for every list of live sessions the classifier selects
exactly: under the default policy, every `gt-`-prefixed session except the
crew sessions (names containing `-crew-`); under the all policy, every
`gt-`-prefixed session; under the polecats-only policy, exactly the sessions
`isPolecatSession` recognizes as ephemeral workers — `gt-`-prefixed names with
at least three dash-separated parts whose third part is not `witness`,
`refinery` or `crew`, and that are neither crew sessions nor singletons — in
every case preserving the remaining fleet sessions. -/
theorem categorizeSessions_policies (allFlag : Bool) (sessions : List String) :
    categorizeSessions true allFlag sessions =
      (sessions.filter (fun s => goHasPrefix s "gt-" && isPolecatSession s),
        sessions.filter (fun s => goHasPrefix s "gt-" && !(isPolecatSession s)))
  ∧ categorizeSessions false true sessions =
      (sessions.filter (fun s => goHasPrefix s "gt-"), [])
  ∧ categorizeSessions false false sessions =
      (sessions.filter (fun s => goHasPrefix s "gt-" && !(isCrewSession s)),
        sessions.filter (fun s => goHasPrefix s "gt-" && isCrewSession s)) :=
  ⟨categorizeSessions_polecatsOnly allFlag sessions,
    categorizeSessions_all sessions,
    categorizeSessions_default sessions⟩

/-- C6: startup issues a session start only for an absent singleton, starts the
Mayor before the Deacon when both are absent, and starts nothing (succeeding)
when both sessions already exist. -/
theorem runStart_idempotent (mayorRunning deaconRunning mayorStartOk deaconStartOk : Bool) :
    (StartEvent.startMayor ∈
        (runStart mayorRunning deaconRunning mayorStartOk deaconStartOk).1 →
      mayorRunning = false)
  ∧ (StartEvent.startDeacon ∈
        (runStart mayorRunning deaconRunning mayorStartOk deaconStartOk).1 →
      deaconRunning = false)
  ∧ (mayorRunning = false → deaconRunning = false → mayorStartOk = true →
      (runStart mayorRunning deaconRunning mayorStartOk deaconStartOk).1 =
        [StartEvent.startMayor, StartEvent.startDeacon])
  ∧ runStart true true mayorStartOk deaconStartOk = ([], true) := by
  cases mayorRunning <;> cases deaconRunning <;>
    cases mayorStartOk <;> cases deaconStartOk <;> decide

/-- Witness for C6 at the two concrete session states of interest. -/
theorem runStart_idempotent_witness :
    (runStart false false true true).1 = [StartEvent.startMayor, StartEvent.startDeacon]
  ∧ runStart true true true true = ([], true) :=
  ⟨(runStart_idempotent false false true true).2.2.1 rfl rfl rfl,
    (runStart_idempotent true true true true).2.2.2⟩

/-- C9: when the classifier selects no session to stop, shutdown reports the
fleet as not running and returns success with an empty event trace: no kill
attempt and no reclamation pass, whatever sessions were preserved and whatever
polecat state remains. -/
theorem runShutdown_not_running (graceful yes polecatsOnly allFlag : Bool)
    (shutdownWait : Int) (killOk : String → Bool) (townRoot : String)
    (sessions : List String) (response : String)
    (h : (categorizeSessions polecatsOnly allFlag sessions).1 = []) :
    runShutdown graceful yes polecatsOnly allFlag shutdownWait killOk townRoot
      sessions response = ⟨true, false, [], true⟩ := by
  simp [runShutdown, h]

/-- Witness for C9: a run with only a preserved crew session and a foreign
session reports not running. -/
theorem runShutdown_not_running_witness :
    runShutdown false false false false 30 (fun _ => true) "town"
      ["gt-gastown-crew-dan", "work-main"] "" = ⟨true, false, [], true⟩ :=
  runShutdown_not_running false false false false 30 (fun _ => true) "town"
    ["gt-gastown-crew-dan", "work-main"] "" (by decide)

/-- C10: without the yes flag, every confirmation response other than `y` or
`yes` (after lowercasing and trimming) cancels the shutdown: the run succeeds,
kills no session and runs no reclamation, and when sessions had been selected
the run is marked cancelled. -/
theorem runShutdown_cancelled (graceful polecatsOnly allFlag : Bool)
    (shutdownWait : Int) (killOk : String → Bool) (townRoot : String)
    (sessions : List String) (response : String)
    (h1 : goTrimSpace (goToLower response) ≠ "y")
    (h2 : goTrimSpace (goToLower response) ≠ "yes") :
    (runShutdown graceful false polecatsOnly allFlag shutdownWait killOk townRoot
        sessions response).events = []
  ∧ (runShutdown graceful false polecatsOnly allFlag shutdownWait killOk townRoot
        sessions response).success = true
  ∧ ((categorizeSessions polecatsOnly allFlag sessions).1 ≠ [] →
      runShutdown graceful false polecatsOnly allFlag shutdownWait killOk townRoot
        sessions response = ⟨false, true, [], true⟩) := by
  have hcr : confirmRejected response = true := by
    simp only [confirmRejected, Bool.and_eq_true, Bool.not_eq_true']
    exact ⟨by simpa using h1, by simpa using h2⟩
  cases he : (categorizeSessions polecatsOnly allFlag sessions).1.isEmpty with
  | true =>
    have hnil : (categorizeSessions polecatsOnly allFlag sessions).1 = [] := by
      simpa using he
    refine ⟨?_, ?_, ?_⟩ <;> simp [runShutdown, he, hnil]
  | false =>
    refine ⟨?_, ?_, ?_⟩ <;> simp [runShutdown, he, hcr]

/-- Witness for C10: the response `n` cancels a shutdown that had selected the
Mayor session. -/
theorem runShutdown_cancelled_witness :
    (runShutdown false false false false 30 (fun _ => true) "town" ["gt-mayor"]
        "n\n").events = []
  ∧ (runShutdown false false false false 30 (fun _ => true) "town" ["gt-mayor"]
        "n\n").success = true
  ∧ ((categorizeSessions false false ["gt-mayor"]).1 ≠ [] →
      runShutdown false false false false 30 (fun _ => true) "town" ["gt-mayor"]
        "n\n" = ⟨false, true, [], true⟩) :=
  runShutdown_cancelled false false false 30 (fun _ => true) "town" ["gt-mayor"]
    "n\n" (by decide) (by decide)

/-- Total sleep of the countdown loop body: with fuel at least
`remaining.toNat`, the sleeps add up to exactly `remaining` when it is
nonnegative. -/
theorem phase3Go_sum (fuel : Nat) : ∀ remaining : Int, 0 ≤ remaining →
    remaining.toNat ≤ fuel → (phase3Go fuel remaining).sum = remaining := by
  induction fuel with
  | zero =>
    intro r h0 hf
    have hr : r = 0 := by omega
    subst hr
    rfl
  | succ n ih =>
    intro r h0 hf
    by_cases hr : r > 0
    · rw [phase3Go, if_pos hr]
      by_cases h5 : r < 5
      · have hz : phase3Go n (r - 5) = [] := by
          cases n with
          | zero => rfl
          | succ m => rw [phase3Go, if_neg (by omega)]
        rw [if_pos h5, hz]
        simp
      · have hrec : (phase3Go n (r - 5)).sum = r - 5 := ih (r - 5) (by omega) (by omega)
        rw [if_neg h5]
        simp only [List.sum_cons, hrec]
        omega
    · rw [phase3Go, if_neg hr]
      simp only [List.sum_nil]
      omega

/-- Total sleep of the phase-3 wait: exactly the configured wait value. -/
theorem phase3Sleeps_sum (shutdownWait : Int) (hw : 0 ≤ shutdownWait) :
    (phase3Sleeps shutdownWait).sum = shutdownWait :=
  phase3Go_sum shutdownWait.toNat shutdownWait hw le_rfl

/-- C5: the graceful shutdown trace is the five phases in order — an interrupt
to every selected session, then a per-session stagger followed by the
structured shutdown notice, then the wait whose sleeps total exactly the
configured number of seconds (for every nonnegative configured value), then the
kill attempts in race-safe order with the stopped count counting the successful
ones, then the reclamation pass when a workspace root is known. -/
theorem runGracefulShutdown_phases (killOk : String → Bool) (shutdownWait : Int)
    (gtSessions : List String) (townRoot : String) (hw : 0 ≤ shutdownWait) :
    (∃ waits : List Int,
      (runGracefulShutdown killOk shutdownWait gtSessions townRoot).1 =
        gtSessions.map ShutdownEvent.interrupt
          ++ (gtSessions.map (fun sess =>
                [ShutdownEvent.sleepMs 500, ShutdownEvent.notice sess])).flatten
          ++ waits.map ShutdownEvent.waitSec
          ++ ((killSessionsInOrder killOk gtSessions).1).map
              (fun sess => ShutdownEvent.killAttempt sess (killOk sess))
          ++ (if townRoot == "" then [] else [ShutdownEvent.cleanup])
      ∧ waits.sum = shutdownWait)
  ∧ (runGracefulShutdown killOk shutdownWait gtSessions townRoot).2 =
      (((killSessionsInOrder killOk gtSessions).1).filter killOk).length :=
  ⟨⟨phase3Sleeps shutdownWait, rfl, phase3Sleeps_sum shutdownWait hw⟩, rfl⟩

/-- Witness for C5 at a concrete wait of 7 seconds and one selected session. -/
theorem runGracefulShutdown_phases_witness :
    (∃ waits : List Int,
      (runGracefulShutdown (fun _ => true) 7 ["gt-mayor"] "town").1 =
        ["gt-mayor"].map ShutdownEvent.interrupt
          ++ (["gt-mayor"].map (fun sess =>
                [ShutdownEvent.sleepMs 500, ShutdownEvent.notice sess])).flatten
          ++ waits.map ShutdownEvent.waitSec
          ++ ((killSessionsInOrder (fun _ => true) ["gt-mayor"]).1).map
              (fun sess => ShutdownEvent.killAttempt sess true)
          ++ (if ("town" : String) == "" then [] else [ShutdownEvent.cleanup])
      ∧ waits.sum = 7)
  ∧ (runGracefulShutdown (fun _ => true) 7 ["gt-mayor"] "town").2 =
      (((killSessionsInOrder (fun _ => true) ["gt-mayor"]).1).filter
        (fun _ => true)).length :=
  runGracefulShutdown_phases (fun _ => true) 7 ["gt-mayor"] "town" (by norm_num)

/-- C3: a polecat whose working copy has uncommitted changes, or whose check
fails, is not removed by the reclamation pass unless the nuclear flag is set:
its removal is never attempted, it is counted as skipped, and (in the
uncommitted case) its rig-qualified name and change summary are recorded in the
report; with the nuclear flag set the pass attempts the removal but still emits
the warning. -/
theorem cleanupPolecats_protects_uncommitted (nuclear : Bool) (p : Polecat)
    (ps : List Polecat) (summary : String)
    (hdirty : p.check = StatusCheck.err ∨ p.check = StatusCheck.ok false summary) :
    (nuclear = false →
        (processPolecat false p).cleaned = 0
      ∧ (∀ rig nm ok, CleanupEvent.removeWorktree rig nm ok ∉ (processPolecat false p).events)
      ∧ (cleanupPolecats false (p :: ps)).skipped = (cleanupPolecats false ps).skipped + 1
      ∧ (cleanupPolecats false (p :: ps)).cleaned = (cleanupPolecats false ps).cleaned)
  ∧ (p.check = StatusCheck.ok false summary → nuclear = false →
      (cleanupPolecats false (p :: ps)).uncommitted =
        reportEntry p summary :: (cleanupPolecats false ps).uncommitted)
  ∧ (p.check = StatusCheck.ok false summary → nuclear = true →
        CleanupEvent.warnNuclear p.rigName p.name ∈ (processPolecat true p).events
      ∧ CleanupEvent.removeWorktree p.rigName p.name p.removeOk ∈ (processPolecat true p).events) := by
  rcases p with ⟨rig, nm, check, rok, dok⟩
  rcases hdirty with h | h <;> cases h <;> cases rok <;>
    refine ⟨fun _ => ?_, fun h2 h3 => ?_, fun h2 h3 => ?_⟩ <;>
    simp_all [processPolecat, cleanupPolecats, attemptRemoval, reportEntry, Nat.add_comm]

/-- Witness for C3: a dirty polecat is skipped and reported. -/
theorem cleanupPolecats_protects_uncommitted_witness :
    ((processPolecat false ⟨"gas", "nux", StatusCheck.ok false "2 files", true, true⟩).cleaned = 0
  ∧ (∀ rig nm ok, CleanupEvent.removeWorktree rig nm ok ∉
      (processPolecat false ⟨"gas", "nux", StatusCheck.ok false "2 files", true, true⟩).events)
  ∧ (cleanupPolecats false [⟨"gas", "nux", StatusCheck.ok false "2 files", true, true⟩]).skipped
      = (cleanupPolecats false []).skipped + 1
  ∧ (cleanupPolecats false [⟨"gas", "nux", StatusCheck.ok false "2 files", true, true⟩]).cleaned
      = (cleanupPolecats false []).cleaned)
  ∧ (cleanupPolecats false [⟨"gas", "nux", StatusCheck.ok false "2 files", true, true⟩]).uncommitted
      = reportEntry ⟨"gas", "nux", StatusCheck.ok false "2 files", true, true⟩ "2 files"
        :: (cleanupPolecats false []).uncommitted :=
  ⟨(cleanupPolecats_protects_uncommitted false
      ⟨"gas", "nux", StatusCheck.ok false "2 files", true, true⟩ [] "2 files"
      (Or.inr rfl)).1 rfl,
    (cleanupPolecats_protects_uncommitted false
      ⟨"gas", "nux", StatusCheck.ok false "2 files", true, true⟩ [] "2 files"
      (Or.inr rfl)).2.1 rfl rfl⟩

/-- C4 counterexample: a clean polecat whose external worktree-removal call
fails is not counted in the cleaned total — it is counted as skipped — so the
claim that a clean ephemeral worker is always removed and counted in the
cleaned total fails at this input. -/
theorem cleanupPolecats_clean_counterexample :
    (⟨"gas", "nux", StatusCheck.ok true "", false, true⟩ : Polecat).check
      = StatusCheck.ok true ""
  ∧ (cleanupPolecats false [⟨"gas", "nux", StatusCheck.ok true "", false, true⟩]).cleaned = 0
  ∧ (cleanupPolecats false [⟨"gas", "nux", StatusCheck.ok true "", false, true⟩]).skipped = 1 := by
  decide

/-- C4 (amended): for every clean polecat the reclamation pass always attempts
the removal of its working copy; when the removal call succeeds the polecat is
counted in the cleaned total and the `polecat/<name>` branch deletion is
attempted on the mayor clone, with the deletion outcome ignored by every
counter and report; when the removal call fails the polecat is counted as
skipped instead. -/
theorem cleanupPolecats_clean_removal (nuclear : Bool) (p : Polecat)
    (ps : List Polecat) (summary : String)
    (hclean : p.check = StatusCheck.ok true summary) :
    CleanupEvent.removeWorktree p.rigName p.name p.removeOk ∈ (processPolecat nuclear p).events
  ∧ (p.removeOk = true →
        (cleanupPolecats nuclear (p :: ps)).cleaned = (cleanupPolecats nuclear ps).cleaned + 1
      ∧ CleanupEvent.deleteBranch ("polecat/" ++ p.name) p.deleteBranchOk
          ∈ (processPolecat nuclear p).events)
  ∧ (p.removeOk = false →
        (cleanupPolecats nuclear (p :: ps)).skipped = (cleanupPolecats nuclear ps).skipped + 1
      ∧ (cleanupPolecats nuclear (p :: ps)).cleaned = (cleanupPolecats nuclear ps).cleaned)
  ∧ (∀ b1 b2,
        (cleanupPolecats nuclear (withDeleteBranchOk p b1 :: ps)).cleaned
          = (cleanupPolecats nuclear (withDeleteBranchOk p b2 :: ps)).cleaned
      ∧ (cleanupPolecats nuclear (withDeleteBranchOk p b1 :: ps)).skipped
          = (cleanupPolecats nuclear (withDeleteBranchOk p b2 :: ps)).skipped
      ∧ (cleanupPolecats nuclear (withDeleteBranchOk p b1 :: ps)).uncommitted
          = (cleanupPolecats nuclear (withDeleteBranchOk p b2 :: ps)).uncommitted) := by
  rcases p with ⟨rig, nm, check, rok, dok⟩
  cases hclean
  cases rok <;>
    refine ⟨?_, fun h2 => ?_, fun h2 => ?_, fun b1 b2 => ?_⟩ <;>
    simp_all [processPolecat, cleanupPolecats, attemptRemoval, withDeleteBranchOk,
      Nat.add_comm]

/-- Witness for C4 (amended): a clean polecat whose removal succeeds is counted
as cleaned and gets its branch deletion attempted. -/
theorem cleanupPolecats_clean_removal_witness :
    (cleanupPolecats false [⟨"gas", "nux", StatusCheck.ok true "", true, true⟩]).cleaned
      = (cleanupPolecats false []).cleaned + 1
  ∧ CleanupEvent.deleteBranch ("polecat/" ++ "nux") true
      ∈ (processPolecat false ⟨"gas", "nux", StatusCheck.ok true "", true, true⟩).events :=
  (cleanupPolecats_clean_removal false
    ⟨"gas", "nux", StatusCheck.ok true "", true, true⟩ [] "" rfl).2.1 rfl

/-- Lookup distributes over list append. -/
theorem lookup_append_eq (a : String) (l1 l2 : List (String × JsonValue)) :
    (l1 ++ l2).lookup a =
      match l1.lookup a with
      | some v => some v
      | none => l2.lookup a := by
  induction l1 with
  | nil => rfl
  | cons x rest ih =>
    cases x with
    | mk k v =>
      cases hk : (a == k) <;> simp [List.lookup, hk, ih]

/-- Lookup of a key different from `k` in an omit-when-empty chunk. -/
theorem lookup_ite_nil_left (a : String) (c : Prop) [Decidable c] (k : String)
    (v : JsonValue) (h : (a == k) = false) :
    List.lookup a (if c then [] else [(k, v)]) = none := by
  split <;> simp [List.lookup, h]

/-- Lookup of a key different from `k` in an emit-when-set chunk. -/
theorem lookup_ite_nil_right (a : String) (c : Prop) [Decidable c] (k : String)
    (v : JsonValue) (h : (a == k) = false) :
    List.lookup a (if c then [(k, v)] else []) = none := by
  split <;> simp [List.lookup, h]

/-- Key presence in an omit-when-empty chunk. -/
theorem mem_keys_ite_nil_left (a : String) (c : Prop) [Decidable c] (k : String)
    (v : JsonValue) :
    (a ∈ (if c then ([] : List (String × JsonValue)) else [(k, v)]).map Prod.fst)
      ↔ (¬c ∧ a = k) := by
  split <;> simp_all

/-- Key presence in an emit-when-set chunk. -/
theorem mem_keys_ite_nil_right (a : String) (c : Prop) [Decidable c] (k : String)
    (v : JsonValue) :
    (a ∈ (if c then [(k, v)] else ([] : List (String × JsonValue))).map Prod.fst)
      ↔ (c ∧ a = k) := by
  split <;> simp_all

/-- C7: every dispatch result record serializes with an `action` value that is
one of `slung`, `spawned`, `dry_run`; the `bead_id`, `target` and `nudge_sent`
keys are always present; and the `formula`, `wisp_id`, `convoy_id`,
`original_bead_id` and `polecat_name` keys are present exactly when the
corresponding field is nonempty. -/
theorem slingResultJSON_schema (r : slingResult) :
    (slingResultJSON r).lookup "action" = some (JsonValue.str (slingActionString r.action))
  ∧ (slingActionString r.action = "slung" ∨ slingActionString r.action = "spawned"
      ∨ slingActionString r.action = "dry_run")
  ∧ (slingResultJSON r).lookup "bead_id" = some (JsonValue.str r.beadID)
  ∧ (slingResultJSON r).lookup "target" = some (JsonValue.str r.target)
  ∧ (slingResultJSON r).lookup "nudge_sent" = some (JsonValue.bool r.nudgeSent)
  ∧ (("formula" ∈ (slingResultJSON r).map Prod.fst) ↔ r.formula ≠ "")
  ∧ (("wisp_id" ∈ (slingResultJSON r).map Prod.fst) ↔ r.wispID ≠ "")
  ∧ (("convoy_id" ∈ (slingResultJSON r).map Prod.fst) ↔ r.convoyID ≠ "")
  ∧ (("original_bead_id" ∈ (slingResultJSON r).map Prod.fst) ↔ r.originalBeadID ≠ "")
  ∧ (("polecat_name" ∈ (slingResultJSON r).map Prod.fst) ↔ r.polecatName ≠ "") := by
  refine ⟨?_, ?_, ?_, ?_, ?_, ?_, ?_, ?_, ?_, ?_⟩
  · simp [slingResultJSON, lookup_append_eq, List.lookup]
  · cases h : r.action <;> simp [slingActionString]
  · simp [slingResultJSON, lookup_append_eq, List.lookup]
  · simp [slingResultJSON, lookup_append_eq, lookup_ite_nil_left,
      lookup_ite_nil_right, List.lookup]
  · simp [slingResultJSON, lookup_append_eq, lookup_ite_nil_left,
      lookup_ite_nil_right, List.lookup]
  · simp [slingResultJSON, mem_keys_ite_nil_left, mem_keys_ite_nil_right]
  · simp [slingResultJSON, mem_keys_ite_nil_left, mem_keys_ite_nil_right]
  · simp [slingResultJSON, mem_keys_ite_nil_left, mem_keys_ite_nil_right]
  · simp [slingResultJSON, mem_keys_ite_nil_left, mem_keys_ite_nil_right]
  · simp [slingResultJSON, mem_keys_ite_nil_left, mem_keys_ite_nil_right]

end Gastown
